import Mathlib

/-!
Shallow embedding of the fastapi-with-otel demonstration service.

The repository has two near-duplicate entry points:
* `src/app/middleware.py` (`observability_middleware`) together with
  `src/app/main.py` (endpoint handlers) and `src/app/otel_setup.py`
  (instrument registry `create_metrics_instruments`);
* `src/main.py` (`metrics_middleware` plus module-level instruments).

The embedding models the per-request bookkeeping exactly as the Python code
performs it.  Machine-irrelevant effects (log lines, span attributes) do not
touch the modelled state and are omitted; metric-instrument operations are
recorded as an explicit event list so that ordering, instrument names, values
and tags are preserved.  Wall-clock durations and `random` draws enter as
parameters.  Python floats are modelled as rationals.
-/

/-- An inbound HTTP request as the middleware sees it: `request.method` and
`request.url.path` are the only fields the modelled code reads. -/
structure Request where
  method : String
  path : String
deriving DecidableEq

/-- The downstream response as the middleware sees it: only
`response.status_code` is read. -/
structure Response where
  status_code : Nat
deriving DecidableEq

/-- `fastapi.HTTPException(status_code=..., detail=...)`. -/
structure HTTPError where
  status_code : Nat
  detail : String
deriving DecidableEq

/-- The module-level mutable globals of `src/app/middleware.py` lines 2-4
(identically `src/main.py` lines 112-114): `total_requests`, `total_errors`,
`active_requests`, all initially `0`.  `active_requests` is the one counter
that is also decremented, so it is carried as an integer. -/
structure MWState where
  total_requests : Nat
  total_errors : Nat
  active_requests : Int
deriving DecidableEq

/-- The state at process start: all three globals are zero. -/
def initState : MWState := ⟨0, 0, 0⟩

/-- One operation on a metric instrument, in program order: `add` on a
counter, `record` on a histogram, `set` on a gauge.  The first field is the
instrument's registered name. -/
inductive MetricEvent where
  | add (instrument : String) (value : ℚ) (tags : List (String × String))
  | record (instrument : String) (value : ℚ) (tags : List (String × String))
  | set (instrument : String) (value : ℚ)
deriving DecidableEq

/-- The outcome of `await call_next(request)`: either the downstream chain
produced a response, or it raised an exception. -/
inductive HandlerOutcome where
  | ok (response : Response)
  | exn (e : HTTPError)
deriving DecidableEq

/-- The `Except` value an outcome propagates to the middleware's caller. -/
def HandlerOutcome.toExcept : HandlerOutcome → Except HTTPError Response
  | .ok response => .ok response
  | .exn e => .error e

/-- The instrument registry of `src/app/otel_setup.py`
(`create_metrics_instruments`): logical keys of the returned dict mapped to
the registered instrument names. -/
structure Instruments where
  request_counter : String
  response_time_histogram : String
  orders_counter : String
  user_lookups_counter : String
  active_requests_gauge : String
  error_rate_gauge : String

/-- `create_metrics_instruments(meter)` from `src/app/otel_setup.py`
lines 163-187, reduced to the name wiring (descriptions and units carry no
behaviour). -/
def create_metrics_instruments : Instruments :=
  { request_counter := "http_requests_custom_total"
    response_time_histogram := "http_request_duration_seconds"
    orders_counter := "orders_created_total"
    user_lookups_counter := "user_lookups_total"
    active_requests_gauge := "active_requests_current"
    error_rate_gauge := "error_rate_current" }

/-- `custom_request_counter` of `src/main.py` lines 82-85. -/
def custom_request_counter : String := "http_requests_custom_total"

/-- `response_time_histogram` of `src/main.py` lines 87-91. -/
def response_time_histogram : String := "http_request_duration_seconds"

/-- `orders_counter` of `src/main.py` lines 94-96. -/
def orders_counter : String := "orders_created_total"

/-- `user_lookups_counter` of `src/main.py` lines 98-100. -/
def user_lookups_counter : String := "user_lookups_total"

/-- `active_requests_gauge` of `src/main.py` lines 103-105. -/
def active_requests_gauge : String := "active_requests_current"

/-- `error_rate_gauge` of `src/main.py` lines 107-109. -/
def error_rate_gauge : String := "error_rate_current"

/-- The error-rate expression of `src/app/middleware.py` line 55 and
`src/main.py` line 161:
`(total_errors / total_requests) * 100 if total_requests > 0 else 0`. -/
def error_rate_of (total_errors total_requests : Nat) : ℚ :=
  if total_requests > 0 then ((total_errors : ℚ) / (total_requests : ℚ)) * 100 else 0

/-- `observability_middleware` from `src/app/middleware.py` lines 10-65.
The pre-processing increments both counters and publishes the
active-requests gauge; the `with`-span block then awaits `call_next`.
When `call_next` raises, the exception propagates out of the `with` block
(the span closes, but nothing after line 28 runs): no decrement, no further
metric event.  When it returns, lines 29-65 run in order.  `duration` stands
for `time.time() - start_time`. -/
def observability_middleware (st : MWState) (request : Request)
    (outcome : HandlerOutcome) (duration : ℚ) :
    Except HTTPError Response × MWState × List MetricEvent :=
  let st := { st with
    active_requests := st.active_requests + 1
    total_requests := st.total_requests + 1 }
  let events := [MetricEvent.set create_metrics_instruments.active_requests_gauge
    (st.active_requests : ℚ)]
  match outcome with
  | .exn e => (.error e, st, events)
  | .ok response =>
    let st := { st with active_requests := st.active_requests - 1 }
    let events := events ++
      [MetricEvent.set create_metrics_instruments.active_requests_gauge
        (st.active_requests : ℚ),
       MetricEvent.add create_metrics_instruments.request_counter 1
        [("method", request.method), ("endpoint", request.path),
         ("status_code", toString response.status_code)],
       MetricEvent.record create_metrics_instruments.response_time_histogram duration
        [("method", request.method), ("endpoint", request.path)]]
    let st := if response.status_code ≥ 400 then
      { st with total_errors := st.total_errors + 1 } else st
    let error_rate := error_rate_of st.total_errors st.total_requests
    let events := events ++
      [MetricEvent.set create_metrics_instruments.error_rate_gauge error_rate]
    (.ok response, st, events)

/-- `metrics_middleware` from `src/main.py` lines 117-171, transcribed from
its own source text; it reads the module-level instrument names instead of
the registry dict.  Structure is otherwise line-for-line the same as
`observability_middleware`. -/
def metrics_middleware (st : MWState) (request : Request)
    (outcome : HandlerOutcome) (duration : ℚ) :
    Except HTTPError Response × MWState × List MetricEvent :=
  let st := { st with
    active_requests := st.active_requests + 1
    total_requests := st.total_requests + 1 }
  let events := [MetricEvent.set active_requests_gauge (st.active_requests : ℚ)]
  match outcome with
  | .exn e => (.error e, st, events)
  | .ok response =>
    let st := { st with active_requests := st.active_requests - 1 }
    let events := events ++
      [MetricEvent.set active_requests_gauge (st.active_requests : ℚ),
       MetricEvent.add custom_request_counter 1
        [("method", request.method), ("endpoint", request.path),
         ("status_code", toString response.status_code)],
       MetricEvent.record response_time_histogram duration
        [("method", request.method), ("endpoint", request.path)]]
    let st := if response.status_code ≥ 400 then
      { st with total_errors := st.total_errors + 1 } else st
    let error_rate := error_rate_of st.total_errors st.total_requests
    let events := events ++
      [MetricEvent.set error_rate_gauge error_rate]
    (.ok response, st, events)

/-- The Python value the middleware returns or the exception it propagates. -/
def mwResult (st : MWState) (request : Request) (outcome : HandlerOutcome)
    (duration : ℚ) : Except HTTPError Response :=
  (observability_middleware st request outcome duration).1

/-- The middleware globals after one request. -/
def mwPost (st : MWState) (request : Request) (outcome : HandlerOutcome)
    (duration : ℚ) : MWState :=
  (observability_middleware st request outcome duration).2.1

/-- The metric events one middleware execution emits, in program order. -/
def mwEvents (st : MWState) (request : Request) (outcome : HandlerOutcome)
    (duration : ℚ) : List MetricEvent :=
  (observability_middleware st request outcome duration).2.2

/-- Runs the middleware over a sequence of completed requests (each given as
request, downstream response, and measured duration), threading the global
state and concatenating the emitted metric events. -/
def runMiddleware : MWState → List (Request × Response × ℚ) →
    MWState × List MetricEvent
  | st, [] => (st, [])
  | st, (request, response, duration) :: rest =>
    let out := observability_middleware st request (.ok response) duration
    let tail := runMiddleware out.2.1 rest
    (tail.1, out.2.2 ++ tail.2)

/-- Number of completed requests in a sequence whose response status is
at least 400. -/
def completedErrors (reqs : List (Request × Response × ℚ)) : Nat :=
  reqs.countP fun x => decide (x.2.1.status_code ≥ 400)

/-- The value carried by the last `set` event on the named gauge, if any. -/
def lastSet (instrument : String) : List MetricEvent → Option ℚ
  | [] => none
  | e :: rest =>
    match lastSet instrument rest with
    | some v => some v
    | none =>
      match e with
      | .set i v => if i = instrument then some v else none
      | _ => none

/-- All values `set` on the named gauge, in program order. -/
def setsOf (instrument : String) (events : List MetricEvent) : List ℚ :=
  events.filterMap fun e =>
    match e with
    | .set i v => if i = instrument then some v else none
    | _ => none

/-- Body returned by `get_user` in `src/app/main.py` lines 67-71. -/
structure UserBody where
  user_id : Int
  name : String
  type : String
deriving DecidableEq

/-- Body returned by `create_order` in `src/app/main.py` lines 121-125. -/
structure OrderBody where
  order_id : String
  amount : ℚ
  status : String
deriving DecidableEq

/-- Body returned by `health` in `src/app/main.py` lines 134-138. -/
structure HealthBody where
  status : String
  service : String
  observability : String
deriving DecidableEq

/-- Success body returned by `random_endpoint` in `src/app/main.py`
line 203. -/
structure RandomBody where
  result : String
  value : Nat
deriving DecidableEq

/-- `GET /users/{user_id}` — `get_user` from `src/app/main.py` lines 47-71.
The `user_lookups_counter.add` at line 54 runs before the `user_id <= 0`
check at line 63, so the event is emitted on both branches.  The handler
either raises `HTTPException(400)` or returns the user dict. -/
def get_user (user_id : Int) :
    Except HTTPError UserBody × List MetricEvent :=
  let events := [MetricEvent.add create_metrics_instruments.user_lookups_counter 1
    [("user_type", if user_id < 1000 then "standard" else "premium")]]
  if user_id ≤ 0 then
    (.error ⟨400, "User ID must be positive"⟩, events)
  else
    (.ok ⟨user_id, "User " ++ toString user_id,
      if user_id ≥ 1000 then "premium" else "standard"⟩, events)

/-- `POST /orders` — `create_order` from `src/app/main.py` lines 91-125.
`order.get("amount", 0)` is modelled as `Option.getD`; `now` stands for
`int(time.time())`.  The handler never raises. -/
def create_order (order : Option ℚ) (now : Nat) :
    Except HTTPError OrderBody × List MetricEvent :=
  let amount := order.getD 0
  let events := [MetricEvent.add create_metrics_instruments.orders_counter 1
    [("order_size", if amount > 100 then "large" else "small"),
     ("currency", "USD")]]
  (.ok ⟨"order_" ++ toString now, amount, "created"⟩, events)

/-- `GET /health` — `health` from `src/app/main.py` lines 128-138. -/
def health : Except HTTPError HealthBody :=
  .ok ⟨"healthy", "fastapi-clean-demo", "enabled"⟩

/-- `GET /error` — `error_endpoint` from `src/app/main.py` lines 184-191:
raises `HTTPException(500)` unconditionally. -/
def error_endpoint : Except HTTPError Unit :=
  .error ⟨500, "Demo error for testing metrics"⟩

/-- The literal list `[True, True, True, False]` that `GET /random` draws
from (`src/app/main.py` line 199). -/
def random_choices : List Bool := [true, true, true, false]

/-- `GET /random` — `random_endpoint` from `src/app/main.py` lines 194-207.
`i` is the index `random.choice` draws (uniform over the list); `v` stands
for `random.randint(1, 100)`. -/
def random_endpoint (i : Fin random_choices.length) (v : Nat) :
    Except HTTPError RandomBody :=
  if random_choices.get i then .ok ⟨"success", v⟩
  else .error ⟨500, "Random failure"⟩

/-- The HTTP status of a handler result: a raised `HTTPException` carries its
own status code; a plain dict return is serialized by the framework with
status 200. -/
def respStatus {α : Type} : Except HTTPError α → Nat
  | .ok _ => 200
  | .error e => e.status_code

/-- Whether a handler result is a success (a returned body). -/
def isOkE {α : Type} : Except HTTPError α → Bool
  | .ok _ => true
  | .error _ => false

/-- The `type` field of a user-endpoint response body, when there is one. -/
def typeField : Except HTTPError UserBody → Option String
  | .ok b => some b.type
  | .error _ => none

/-- The `status` field of an order-endpoint response body, when there is
one. -/
def orderStatusField : Except HTTPError OrderBody → Option String
  | .ok b => some b.status
  | .error _ => none

/-- The `amount` field of an order-endpoint response body, when there is
one. -/
def amountField : Except HTTPError OrderBody → Option ℚ
  | .ok b => some b.amount
  | .error _ => none

/-- The `status` field of the health-endpoint response body, when there is
one. -/
def healthStatusField : Except HTTPError HealthBody → Option String
  | .ok b => some b.status
  | .error _ => none

/-- Tags of the first `add` event on the named counter, if any. -/
def firstAddTags (instrument : String) (events : List MetricEvent) :
    Option (List (String × String)) :=
  events.findSome? fun e =>
    match e with
    | .add i _ tags => if i = instrument then some tags else none
    | _ => none

/-! ## Theorems -/

/-- C5: the middleware propagates the downstream handler's result or
exception unchanged to the caller — when the handler returns a response the
middleware returns that exact response, and when the handler raises, the
exception reaches the caller; handler errors are never swallowed. -/
theorem middleware_propagates_outcome (st : MWState) (request : Request)
    (outcome : HandlerOutcome) (duration : ℚ) :
    mwResult st request outcome duration = outcome.toExcept := by
  cases outcome <;> rfl

/-- C8: `metrics_middleware` (src/main.py) and `observability_middleware`
(src/app/middleware.py) are behaviorally equivalent: on the same state,
request, downstream outcome and duration, they produce the same result, the
same updates to the three global counters, and the same metric events (same
instruments, values, tags, order). -/
theorem middlewares_equivalent (st : MWState) (request : Request)
    (outcome : HandlerOutcome) (duration : ℚ) :
    metrics_middleware st request outcome duration =
      observability_middleware st request outcome duration := by
  cases outcome <;> rfl

/-- C6: `GET /error` raises an HTTP error with status 500 on every
invocation, and `GET /health` returns 200 with a body whose `status` field
is `"healthy"` on every invocation. -/
theorem error_and_health_endpoints :
    respStatus error_endpoint = 500 ∧
    respStatus health = 200 ∧
    healthStatusField health = some "healthy" :=
  ⟨rfl, rfl, rfl⟩

/-- C1 (code bug): when the downstream handler raises instead of producing a
response, the middleware never decrements `active_requests` — there is no
`try/finally` around `call_next`, so the decrement at
`src/app/middleware.py` line 32 is skipped.  Starting from the initial
state, one request whose handler raises leaves `active_requests` at 1, and
the only gauge event published is the increment; no decrement event is
emitted.  The exception itself still propagates. -/
theorem active_requests_leak_on_exception :
    mwPost initState ⟨"GET", "/users/1"⟩ (.exn ⟨500, "boom"⟩) 0 =
      ⟨1, 0, 1⟩ ∧
    initState.active_requests = 0 ∧
    mwEvents initState ⟨"GET", "/users/1"⟩ (.exn ⟨500, "boom"⟩) 0 =
      [MetricEvent.set create_metrics_instruments.active_requests_gauge 1] ∧
    mwResult initState ⟨"GET", "/users/1"⟩ (.exn ⟨500, "boom"⟩) 0 =
      .error ⟨500, "boom"⟩ := by
  refine ⟨?_, rfl, ?_, rfl⟩ <;> decide

/-- C3: `GET /users/{user_id}` returns 400 when `user_id <= 0`; otherwise it
returns 200 with a body whose `type` field is `"premium"` when
`user_id >= 1000` and `"standard"` when `user_id < 1000`. -/
theorem get_user_status_and_type (user_id : Int) :
    respStatus (get_user user_id).1 = (if user_id ≤ 0 then 400 else 200) ∧
    typeField (get_user user_id).1 =
      (if user_id ≤ 0 then none
       else if user_id ≥ 1000 then some "premium" else some "standard") := by
  by_cases h : user_id ≤ 0
  · simp [get_user, respStatus, typeField, h]
  · by_cases h2 : user_id ≥ 1000 <;>
      simp [get_user, respStatus, typeField, h, h2]

/-- C4: `POST /orders` always returns a body with status `"created"` and the
request's amount echoed back, tags the order metric `"large"` exactly when
`amount > 100` and `"small"` otherwise, and uses amount 0 when the body has
no `amount` key. -/
theorem create_order_spec (order : Option ℚ) (now : Nat) :
    orderStatusField (create_order order now).1 = some "created" ∧
    amountField (create_order order now).1 = some (order.getD 0) ∧
    ((firstAddTags create_metrics_instruments.orders_counter
        (create_order order now).2).bind (List.lookup "order_size")) =
      some (if order.getD 0 > 100 then "large" else "small") ∧
    amountField (create_order none now).1 = some 0 := by
  refine ⟨rfl, rfl, ?_, rfl⟩
  by_cases h : order.getD 0 > 100 <;>
    simp [create_order, firstAddTags, List.findSome?, create_metrics_instruments,
      List.lookup, h]

/-- C9: even when `GET /users/{user_id}` is invoked with `user_id ≤ 0` and
fails with 400, the user-lookups counter increment is still emitted (it
precedes the validation check), tagged `user_type = "standard"`; the counter
side effect is not rolled back on the error path. -/
theorem get_user_counts_failed_lookup (user_id : Int) (h : user_id ≤ 0) :
    (get_user user_id).2 =
      [MetricEvent.add create_metrics_instruments.user_lookups_counter 1
        [("user_type", "standard")]] ∧
    respStatus (get_user user_id).1 = 400 := by
  have h2 : user_id < 1000 := by omega
  simp [get_user, respStatus, h, h2]

/-- Witness for C9 at the concrete input `user_id = 0`. -/
theorem get_user_counts_failed_lookup_witness :
    (0 : Int) ≤ 0 ∧
    ((get_user 0).2 =
      [MetricEvent.add create_metrics_instruments.user_lookups_counter 1
        [("user_type", "standard")]] ∧
    respStatus (get_user 0).1 = 400) :=
  ⟨by decide, get_user_counts_failed_lookup 0 (by decide)⟩

/-- C7: `GET /random` draws uniformly from the four-element list
`[True, True, True, False]`; exactly three of the four draws return the
success body (75%), exactly one raises an HTTP error with status 500 (25%),
and every draw is one of those two outcomes. -/
theorem random_endpoint_distribution (v : Nat) :
    random_choices.length = 4 ∧
    ((List.finRange random_choices.length).countP
      fun i => isOkE (random_endpoint i v)) = 3 ∧
    ((List.finRange random_choices.length).countP
      fun i => respStatus (random_endpoint i v) == 500) = 1 ∧
    ∀ i : Fin random_choices.length,
      random_endpoint i v = .ok ⟨"success", v⟩ ∨
      random_endpoint i v = .error ⟨500, "Random failure"⟩ := by
  have hok : ∀ i : Fin random_choices.length,
      isOkE (random_endpoint i v) = random_choices.get i := by
    intro i
    unfold random_endpoint
    cases h : random_choices.get i <;> simp [h, isOkE]
  have herr : ∀ i : Fin random_choices.length,
      (respStatus (random_endpoint i v) == 500) = !random_choices.get i := by
    intro i
    unfold random_endpoint
    cases h : random_choices.get i <;> simp [h, respStatus]
  refine ⟨rfl, ?_, ?_, ?_⟩
  · rw [List.countP_congr
      (q := fun i : Fin random_choices.length => random_choices.get i)
      fun i _ => by rw [hok i]]
    decide
  · rw [List.countP_congr
      (q := fun i : Fin random_choices.length => !random_choices.get i)
      fun i _ => by rw [herr i]]
    decide
  · intro i
    unfold random_endpoint
    cases h : random_choices.get i <;> simp [h]

/-- Whether an outcome is a returned response. -/
def HandlerOutcome.isOk : HandlerOutcome → Bool
  | .ok _ => true
  | .exn _ => false

theorem observability_exn_state (st : MWState) (request : Request)
    (e : HTTPError) (duration : ℚ) :
    (observability_middleware st request (.exn e) duration).2.1 =
      ⟨st.total_requests + 1, st.total_errors, st.active_requests + 1⟩ := rfl

theorem observability_ok_state (st : MWState) (request : Request)
    (response : Response) (duration : ℚ) :
    (observability_middleware st request (.ok response) duration).2.1 =
      ⟨st.total_requests + 1,
       st.total_errors + (if response.status_code ≥ 400 then 1 else 0),
       st.active_requests⟩ := by
  obtain ⟨tr, te, ar⟩ := st
  by_cases h : response.status_code ≥ 400 <;>
    simp [observability_middleware, h]

theorem setsOf_observability_exn (st : MWState) (request : Request)
    (e : HTTPError) (duration : ℚ) :
    setsOf create_metrics_instruments.error_rate_gauge
      (observability_middleware st request (.exn e) duration).2.2 = [] := by
  simp [observability_middleware, setsOf, create_metrics_instruments]

theorem setsOf_observability_ok (st : MWState) (request : Request)
    (response : Response) (duration : ℚ) :
    setsOf create_metrics_instruments.error_rate_gauge
      (observability_middleware st request (.ok response) duration).2.2 =
      [error_rate_of
        (st.total_errors + if response.status_code ≥ 400 then 1 else 0)
        (st.total_requests + 1)] := by
  by_cases h : response.status_code ≥ 400 <;>
    simp [observability_middleware, setsOf, create_metrics_instruments, h]

theorem lastSet_observability_ok (st : MWState) (request : Request)
    (response : Response) (duration : ℚ) :
    lastSet create_metrics_instruments.error_rate_gauge
      (observability_middleware st request (.ok response) duration).2.2 =
      some (error_rate_of
        (st.total_errors + if response.status_code ≥ 400 then 1 else 0)
        (st.total_requests + 1)) := by
  by_cases h : response.status_code ≥ 400 <;>
    simp [observability_middleware, lastSet, create_metrics_instruments, h]

theorem rate_bounds {e n : Nat} (he : e ≤ n) (hn : 0 < n) :
    0 ≤ (e : ℚ) / (n : ℚ) * 100 ∧ (e : ℚ) / (n : ℚ) * 100 ≤ 100 := by
  have h1 : (e : ℚ) ≤ (n : ℚ) := by exact_mod_cast he
  have h2 : (0 : ℚ) < (n : ℚ) := by exact_mod_cast hn
  constructor
  · positivity
  · rw [div_mul_eq_mul_div, div_le_iff₀ h2]
    nlinarith

/-- C10: the middleware preserves `total_errors ≤ total_requests`; at the
point where the error rate is computed `total_requests ≥ 1` (it was
incremented at request start), so the zero-denominator fallback of
`error_rate_of` is not taken — the value published on a completed request is
exactly the division formula — and that value lies in `[0, 100]`. -/
theorem error_rate_invariant (st : MWState) (request : Request)
    (outcome : HandlerOutcome) (duration : ℚ)
    (h : st.total_errors ≤ st.total_requests) :
    (mwPost st request outcome duration).total_errors ≤
      (mwPost st request outcome duration).total_requests ∧
    0 < (mwPost st request outcome duration).total_requests ∧
    setsOf create_metrics_instruments.error_rate_gauge
        (mwEvents st request outcome duration) =
      (if outcome.isOk then
        [((mwPost st request outcome duration).total_errors : ℚ) /
          ((mwPost st request outcome duration).total_requests : ℚ) * 100]
       else []) ∧
    0 ≤ ((mwPost st request outcome duration).total_errors : ℚ) /
        ((mwPost st request outcome duration).total_requests : ℚ) * 100 ∧
    ((mwPost st request outcome duration).total_errors : ℚ) /
        ((mwPost st request outcome duration).total_requests : ℚ) * 100 ≤ 100 := by
  cases outcome with
  | exn e =>
    rw [mwPost, mwEvents, observability_exn_state]
    have hle : st.total_errors ≤ st.total_requests + 1 := by omega
    have hb := rate_bounds hle (Nat.succ_pos _)
    exact ⟨hle, Nat.succ_pos _,
      by rw [setsOf_observability_exn]; rfl, hb.1, hb.2⟩
  | ok response =>
    rw [mwPost, mwEvents, observability_ok_state]
    have hle : st.total_errors + (if response.status_code ≥ 400 then 1 else 0) ≤
        st.total_requests + 1 := by split <;> omega
    have hb := rate_bounds hle (Nat.succ_pos _)
    refine ⟨hle, Nat.succ_pos _, ?_, hb.1, hb.2⟩
    rw [setsOf_observability_ok]
    simp [HandlerOutcome.isOk, error_rate_of, Nat.succ_pos]

/-- Witness for C10 at a concrete input: state `⟨2, 1, 0⟩`, a `GET /`
request completing with status 200. -/
theorem error_rate_invariant_witness :
    (⟨2, 1, 0⟩ : MWState).total_errors ≤ (⟨2, 1, 0⟩ : MWState).total_requests ∧
    ((mwPost ⟨2, 1, 0⟩ ⟨"GET", "/"⟩ (.ok ⟨200⟩) 0).total_errors ≤
      (mwPost ⟨2, 1, 0⟩ ⟨"GET", "/"⟩ (.ok ⟨200⟩) 0).total_requests ∧
    0 < (mwPost ⟨2, 1, 0⟩ ⟨"GET", "/"⟩ (.ok ⟨200⟩) 0).total_requests ∧
    setsOf create_metrics_instruments.error_rate_gauge
        (mwEvents ⟨2, 1, 0⟩ ⟨"GET", "/"⟩ (.ok ⟨200⟩) 0) =
      (if (HandlerOutcome.ok ⟨200⟩).isOk then
        [((mwPost ⟨2, 1, 0⟩ ⟨"GET", "/"⟩ (.ok ⟨200⟩) 0).total_errors : ℚ) /
          ((mwPost ⟨2, 1, 0⟩ ⟨"GET", "/"⟩ (.ok ⟨200⟩) 0).total_requests : ℚ) * 100]
       else []) ∧
    0 ≤ ((mwPost ⟨2, 1, 0⟩ ⟨"GET", "/"⟩ (.ok ⟨200⟩) 0).total_errors : ℚ) /
        ((mwPost ⟨2, 1, 0⟩ ⟨"GET", "/"⟩ (.ok ⟨200⟩) 0).total_requests : ℚ) * 100 ∧
    ((mwPost ⟨2, 1, 0⟩ ⟨"GET", "/"⟩ (.ok ⟨200⟩) 0).total_errors : ℚ) /
        ((mwPost ⟨2, 1, 0⟩ ⟨"GET", "/"⟩ (.ok ⟨200⟩) 0).total_requests : ℚ) * 100 ≤ 100) :=
  ⟨by decide, error_rate_invariant ⟨2, 1, 0⟩ ⟨"GET", "/"⟩ (.ok ⟨200⟩) 0 (by decide)⟩

theorem lastSet_append_of_some {instrument : String} {b : List MetricEvent}
    {v : ℚ} (a : List MetricEvent) (h : lastSet instrument b = some v) :
    lastSet instrument (a ++ b) = some v := by
  induction a with
  | nil => simpa
  | cons e rest ih => simp [List.cons_append, lastSet, ih]

theorem runMiddleware_totals (reqs : List (Request × Response × ℚ)) :
    ∀ st : MWState,
    (runMiddleware st reqs).1.total_requests = st.total_requests + reqs.length ∧
    (runMiddleware st reqs).1.total_errors = st.total_errors + completedErrors reqs := by
  induction reqs with
  | nil => intro st; simp [runMiddleware, completedErrors]
  | cons x rest ih =>
    intro st
    obtain ⟨request, response, duration⟩ := x
    have hstep := observability_ok_state st request response duration
    have htail := ih (observability_middleware st request (.ok response) duration).2.1
    rw [runMiddleware]
    refine ⟨?_, ?_⟩
    · rw [htail.1, hstep]
      simp [List.length_cons]
      omega
    · rw [htail.2, hstep]
      simp only [completedErrors, List.countP_cons]
      by_cases h : response.status_code ≥ 400
      · simp [h]
        omega
      · simp [h]

theorem runMiddleware_lastSet (reqs : List (Request × Response × ℚ))
    (hne : reqs ≠ []) : ∀ st : MWState,
    lastSet create_metrics_instruments.error_rate_gauge (runMiddleware st reqs).2 =
      some (error_rate_of (runMiddleware st reqs).1.total_errors
        (runMiddleware st reqs).1.total_requests) := by
  induction reqs with
  | nil => exact absurd rfl hne
  | cons x rest ih =>
    intro st
    obtain ⟨request, response, duration⟩ := x
    rw [runMiddleware]
    cases rest with
    | nil =>
      rw [runMiddleware]
      simp only [List.append_nil]
      rw [lastSet_observability_ok, observability_ok_state]
    | cons y ys =>
      have htail := ih (by simp) (observability_middleware st request (.ok response) duration).2.1
      exact lastSet_append_of_some _ htail

/-- C2: after any sequence of `N` requests completed through the middleware,
of which `E` had a response status at least 400, the final globals hold
`total_requests = N` and `total_errors = E`, the last value published to the
error-rate gauge is exactly `E / N * 100` (and no value was published when
`N = 0`), and the code's error-rate expression yields 0 whenever
`total_requests = 0`. -/
theorem error_rate_after_sequence (reqs : List (Request × Response × ℚ)) :
    (runMiddleware initState reqs).1.total_requests = reqs.length ∧
    (runMiddleware initState reqs).1.total_errors = completedErrors reqs ∧
    lastSet create_metrics_instruments.error_rate_gauge
        (runMiddleware initState reqs).2 =
      (if reqs.length = 0 then none
       else some ((completedErrors reqs : ℚ) / (reqs.length : ℚ) * 100)) ∧
    ∀ e : Nat, error_rate_of e 0 = 0 := by
  have ht := runMiddleware_totals reqs initState
  have h1 : (runMiddleware initState reqs).1.total_requests = reqs.length := by
    rw [ht.1]; simp [initState]
  have h2 : (runMiddleware initState reqs).1.total_errors = completedErrors reqs := by
    rw [ht.2]; simp [initState]
  refine ⟨h1, h2, ?_, fun e => by simp [error_rate_of]⟩
  cases reqs with
  | nil => simp [runMiddleware, lastSet]
  | cons x rest =>
    rw [runMiddleware_lastSet _ (by simp) initState, h1, h2]
    have hpos : (x :: rest).length ≠ 0 := by simp
    rw [if_neg hpos]
    rw [error_rate_of, if_pos (by simp)]
